import Mathlib

/-!
Shallow embedding of the Game of Life simulation engine from
src/src/main.rs and proofs about its behavior.

The Rust code defines a struct Universe with fields width, height and a
flattened row-major cell buffer, a constructor Universe::new that fills
the buffer from a random boolean source, a stepping function
Universe::tick and a toroidal neighbor counter
Universe::live_neighbor_count.  Machine integers (usize, u8) are modelled
by Nat: the neighbor count is at most 8 so the u8 accumulator never
wraps, and all index arithmetic stays far below 2^64 for the grids the
claims quantify over, with Nat subtraction matching usize subtraction on
the in-range values used (height - 1 and width - 1 with height, width
at least 1).  Out-of-range reads are modelled by List.getD with default
false and out-of-range writes by List.set (a no-op out of range); every
access performed on a valid grid is in range, as proved below.
-/

namespace GameOfLife

/-- The Universe struct from the source: width, height and the
flattened 2-D grid, true = alive, false = dead. -/
structure Universe where
  width : Nat
  height : Nat
  cells : List Bool
  deriving Repr, DecidableEq

/-- A valid grid per the spec: positive dimensions and a cell buffer of
length width * height. -/
def Valid (u : Universe) : Prop :=
  1 ≤ u.width ∧ 1 ≤ u.height ∧ u.cells.length = u.width * u.height

instance (u : Universe) : Decidable (Valid u) := by
  unfold Valid; infer_instance

/-- Universe::new from the source: allocates width * height cells, each
filled by one call to the random boolean source.  The impure random_bool
stream is modelled as a function from the sample index to Bool. -/
def Universe.new (width height : Nat) (rng : Nat → Bool) : Universe :=
  { width := width, height := height,
    cells := (List.range (width * height)).map rng }

/-- Universe::live_neighbor_count from the source: iterates delta_row
over [height - 1, 0, 1] and delta_col over [width - 1, 0, 1], skips the
pair whose delta values are both 0, and counts the live cells at the
wrapped positions. -/
def live_neighbor_count (u : Universe) (row col : Nat) : Nat :=
  [u.height - 1, 0, 1].foldl (fun count delta_row =>
    [u.width - 1, 0, 1].foldl (fun count delta_col =>
      if delta_row = 0 ∧ delta_col = 0 then
        count
      else
        let neighbor_row := (row + delta_row) % u.height
        let neighbor_col := (col + delta_col) % u.width
        let idx := neighbor_row * u.width + neighbor_col
        count + (if u.cells.getD idx false then 1 else 0)) count) 0

/-- The match arms of Universe::tick, in source order with first match
winning: live with fewer than two neighbors dies; live with two or three
survives; live with more than three dies; dead with exactly three is
born; otherwise the state is unchanged. -/
def nextCell (alive : Bool) (live_neighbors : Nat) : Bool :=
  if alive = true ∧ live_neighbors < 2 then false
  else if (alive = true ∧ live_neighbors = 2) ∨ (alive = true ∧ live_neighbors = 3) then true
  else if alive = true ∧ 3 < live_neighbors then false
  else if alive = false ∧ live_neighbors = 3 then true
  else alive

/-- The body of the inner loop of Universe::tick for one row: for each
col below width it overwrites index row * width + col of the buffer
being built with the next state of that cell, every read going to the
original buffer u.cells. -/
def rowWrite (u : Universe) (next : List Bool) (row : Nat) : List Bool :=
  (List.range u.width).foldl (fun nx col =>
    nx.set (row * u.width + col)
      (nextCell (u.cells.getD (row * u.width + col) false)
        (live_neighbor_count u row col))) next

/-- Universe::tick from the source: clones the cell buffer, rewrites
every in-range index from the pre-update state, and replaces the cell
buffer wholesale; width and height are untouched. -/
def tick (u : Universe) : Universe :=
  { u with cells := (List.range u.height).foldl (rowWrite u) u.cells }

/-! ### Characterising the buffer-writing folds -/

/-- A run of writes: for each c below n, overwrite index B + c of the
buffer with g c.  The inner loop of tick is of this shape. -/
def setRange (g : Nat → Bool) (B n : Nat) (l : List Bool) : List Bool :=
  (List.range n).foldl (fun nx c => nx.set (B + c) (g c)) l

lemma rowWrite_eq_setRange (u : Universe) (next : List Bool) (row : Nat) :
    rowWrite u next row =
      setRange (fun c => nextCell (u.cells.getD (row * u.width + c) false)
        (live_neighbor_count u row c)) (row * u.width) u.width next := rfl

lemma setRange_succ (g : Nat → Bool) (B m : Nat) (l : List Bool) :
    setRange g B (m + 1) l = (setRange g B m l).set (B + m) (g m) := by
  rw [setRange, List.range_succ, List.foldl_append]
  rfl

lemma setRange_length (g : Nat → Bool) (B : Nat) :
    ∀ (n : Nat) (l : List Bool), (setRange g B n l).length = l.length := by
  intro n
  induction n with
  | zero => intro l; rfl
  | succ m ih =>
    intro l
    rw [setRange_succ, List.length_set, ih]

lemma setRange_getElem?_lt (g : Nat → Bool) (B : Nat) :
    ∀ (n : Nat) (l : List Bool) (j : Nat), j < B →
      (setRange g B n l)[j]? = l[j]? := by
  intro n
  induction n with
  | zero => intro l j _; rfl
  | succ m ih =>
    intro l j hj
    rw [setRange_succ, List.getElem?_set_ne (by omega)]
    exact ih l j hj

lemma setRange_getElem?_hit (g : Nat → Bool) (B : Nat) :
    ∀ (n : Nat) (l : List Bool) (c : Nat), c < n → B + c < l.length →
      (setRange g B n l)[B + c]? = some (g c) := by
  intro n
  induction n with
  | zero => intro l c hc _; omega
  | succ m ih =>
    intro l c hc hlen
    rw [setRange_succ]
    by_cases h : c = m
    · subst h
      exact List.getElem?_set_self (by rw [setRange_length]; exact hlen)
    · rw [List.getElem?_set_ne (by omega)]
      exact ih l c (by omega) hlen

/-- The outer loop of tick, cut off after the first n rows. -/
def tickAux (u : Universe) (n : Nat) (l : List Bool) : List Bool :=
  (List.range n).foldl (rowWrite u) l

lemma tick_cells_eq_tickAux (u : Universe) :
    (tick u).cells = tickAux u u.height u.cells := rfl

lemma tickAux_succ (u : Universe) (m : Nat) (l : List Bool) :
    tickAux u (m + 1) l = rowWrite u (tickAux u m l) m := by
  rw [tickAux, List.range_succ, List.foldl_append]
  rfl

lemma tickAux_length (u : Universe) :
    ∀ (n : Nat) (l : List Bool), (tickAux u n l).length = l.length := by
  intro n
  induction n with
  | zero => intro l; rfl
  | succ m ih =>
    intro l
    rw [tickAux_succ, rowWrite_eq_setRange, setRange_length, ih]

lemma tickAux_getElem?_hit (u : Universe) :
    ∀ (n : Nat) (l : List Bool) (row col : Nat), row < n → col < u.width →
      row * u.width + col < l.length →
      (tickAux u n l)[row * u.width + col]? =
        some (nextCell (u.cells.getD (row * u.width + col) false)
          (live_neighbor_count u row col)) := by
  intro n
  induction n with
  | zero => intro l row col hr _ _; omega
  | succ m ih =>
    intro l row col hr hc hlen
    rw [tickAux_succ, rowWrite_eq_setRange]
    by_cases h : row = m
    · subst h
      exact setRange_getElem?_hit _ _ _ _ col hc
        (by rw [tickAux_length]; exact hlen)
    · have h1 : row * u.width + col < (row + 1) * u.width := by
        rw [Nat.succ_mul]; omega
      have h2 : (row + 1) * u.width ≤ m * u.width :=
        Nat.mul_le_mul_right _ (by omega)
      rw [setRange_getElem?_lt _ _ _ _ _ (by omega)]
      exact ih l row col (by omega) hc hlen

/-- For a valid grid, the cell written by tick at index
row * width + col is the rule applied to the pre-update state of that
cell and its pre-update neighbor count. -/
lemma tick_cells_getD (u : Universe) (hv : Valid u) (row col : Nat)
    (hr : row < u.height) (hc : col < u.width) :
    (tick u).cells.getD (row * u.width + col) false =
      nextCell (u.cells.getD (row * u.width + col) false)
        (live_neighbor_count u row col) := by
  obtain ⟨hw, hh, hlen⟩ := hv
  have hidx : row * u.width + col < u.cells.length := by
    rw [hlen]
    have h1 : row * u.width + col < (row + 1) * u.width := by
      rw [Nat.succ_mul]; omega
    have h2 : (row + 1) * u.width ≤ u.height * u.width :=
      Nat.mul_le_mul_right _ (by omega)
    rw [Nat.mul_comm u.width u.height]; omega
  rw [List.getD_eq_getElem?_getD, tick_cells_eq_tickAux,
    tickAux_getElem?_hit u u.height u.cells row col hr hc hidx]
  rfl

lemma tick_cells_length (u : Universe) :
    (tick u).cells.length = u.cells.length := by
  rw [tick_cells_eq_tickAux, tickAux_length]

/-! ### A closed form for the neighbor count -/

/-- One read of the neighbor loop: 1 when the cell at the wrapped
offset (delta_row, delta_col) from (row, col) is alive, else 0. -/
def readAt (u : Universe) (row col dr dc : Nat) : Nat :=
  if u.cells.getD (((row + dr) % u.height) * u.width + ((col + dc) % u.width)) false
  then 1 else 0

/-- The neighbor count written out: the loop makes at most eight reads,
and the reads at delta pairs (height - 1, width - 1), (height - 1, 0)
and (0, width - 1) are skipped exactly when their delta values are both
zero, because the skip test in the source compares delta values, not
positions. -/
lemma lnc_closed (u : Universe) (row col : Nat) :
    live_neighbor_count u row col =
      (if u.height - 1 = 0 ∧ u.width - 1 = 0 then 0
        else readAt u row col (u.height - 1) (u.width - 1))
      + (if u.height - 1 = 0 then 0 else readAt u row col (u.height - 1) 0)
      + readAt u row col (u.height - 1) 1
      + (if u.width - 1 = 0 then 0 else readAt u row col 0 (u.width - 1))
      + readAt u row col 0 1
      + readAt u row col 1 (u.width - 1)
      + readAt u row col 1 0
      + readAt u row col 1 1 := by
  by_cases hh : u.height - 1 = 0 <;> by_cases hw : u.width - 1 = 0 <;>
    simp [live_neighbor_count, readAt, hh, hw]

/-! ### Definitions written from the spec wording, for comparison -/

/-- The update rule exactly as the spec states it, evaluated in
priority order with first match winning: live with fewer than two live
neighbors becomes dead; live with exactly two or three stays alive;
live with more than three becomes dead; dead with exactly three becomes
alive; any other dead cell stays dead. -/
def specRule (alive : Bool) (n : Nat) : Bool :=
  if alive = true ∧ n < 2 then false
  else if alive = true ∧ (n = 2 ∨ n = 3) then true
  else if alive = true ∧ 3 < n then false
  else if alive = false ∧ n = 3 then true
  else false

lemma specRule_eq_nextCell (alive : Bool) (n : Nat) :
    specRule alive n = nextCell alive n := by
  cases alive <;> unfold specRule nextCell <;> split_ifs <;> simp_all <;> omega

/-- The eight neighbor offset pairs named by the spec: delta_row drawn
from the three rows height - 1, 0, 1 and delta_col symmetrically, with
only the center pair (0, 0) removed. -/
def specNeighborDeltas (u : Universe) : List (Nat × Nat) :=
  [(u.height - 1, u.width - 1), (u.height - 1, 0), (u.height - 1, 1),
   (0, u.width - 1), (0, 1),
   (1, u.width - 1), (1, 0), (1, 1)]

/-- The neighbor count obtained by examining exactly those eight offset
positions, as the spec words it. -/
def specNeighborCount (u : Universe) (row col : Nat) : Nat :=
  (specNeighborDeltas u).foldl (fun count d =>
    count +
      (if u.cells.getD (((row + d.1) % u.height) * u.width + ((col + d.2) % u.width)) false
       then 1 else 0)) 0

/-! ### Concrete grids used as witnesses -/

/-- A valid 2 x 2 grid with the top row alive. -/
def topRowU : Universe := ⟨2, 2, [true, true, false, false]⟩

/-- A valid 2 x 2 grid with one diagonal alive. -/
def diagPairU : Universe := ⟨2, 2, [true, false, false, true]⟩

/-! ### The claims -/

/-- C1: for every valid grid and every cell position, tick computes the
cell's next state by the B3/S23 rule in the spec's priority order:
a live cell with fewer than 2 live neighbors becomes dead; a live cell
with exactly 2 or 3 live neighbors stays alive; a live cell with more
than 3 live neighbors becomes dead; a dead cell with exactly 3 live
neighbors becomes alive; any other dead cell stays dead. -/
theorem tick_applies_rule (u : Universe) (hv : Valid u) (row col : Nat)
    (hr : row < u.height) (hc : col < u.width) :
    (tick u).cells.getD (row * u.width + col) false =
      specRule (u.cells.getD (row * u.width + col) false)
        (live_neighbor_count u row col) := by
  rw [tick_cells_getD u hv row col hr hc, specRule_eq_nextCell]

/-- Witness for C1 on a concrete grid and position. -/
theorem tick_applies_rule_witness :
    (tick topRowU).cells.getD (0 * topRowU.width + 1) false =
      specRule (topRowU.cells.getD (0 * topRowU.width + 1) false)
        (live_neighbor_count topRowU 0 1) :=
  tick_applies_rule topRowU (by decide) 0 1 (by decide) (by decide)

/-- C2: for every valid grid, tick replaces the cell buffer wholesale
by a new generation in which every entry is a function of the
pre-update buffer only: entry idx is the rule applied to the pre-update
state at idx and the neighbor count taken over the pre-update buffer,
so no next-generation value influences any neighbor count of the same
call. -/
theorem tick_from_pre_update_buffer (u : Universe) (hv : Valid u) :
    (tick u).cells = (List.range (u.height * u.width)).map
      (fun idx => nextCell (u.cells.getD idx false)
        (live_neighbor_count u (idx / u.width) (idx % u.width))) := by
  apply List.ext_getElem
  · rw [tick_cells_length, hv.2.2, List.length_map, List.length_range,
      Nat.mul_comm]
  · intro n h₁ h₂
    have hwpos : 0 < u.width := hv.1
    have hn : n < u.width * u.height := by
      rw [tick_cells_length, hv.2.2] at h₁; exact h₁
    have hrow : n / u.width < u.height := Nat.div_lt_of_lt_mul hn
    have hcol : n % u.width < u.width := Nat.mod_lt _ hwpos
    have hsplit : n / u.width * u.width + n % u.width = n := by
      rw [Nat.mul_comm]; exact Nat.div_add_mod n u.width
    have hmain := tick_cells_getD u hv (n / u.width) (n % u.width) hrow hcol
    rw [hsplit, List.getD_eq_getElem _ _ h₁] at hmain
    simp only [List.getElem_map, List.getElem_range]
    exact hmain

/-- Witness for C2 on a concrete grid. -/
theorem tick_from_pre_update_buffer_witness :
    (tick diagPairU).cells = (List.range (diagPairU.height * diagPairU.width)).map
      (fun idx => nextCell (diagPairU.cells.getD idx false)
        (live_neighbor_count diagPairU (idx / diagPairU.width) (idx % diagPairU.width))) :=
  tick_from_pre_update_buffer diagPairU (by decide)

/-- The fields preserved by any number of tick iterations. -/
lemma tick_iterate_fields (u : Universe) (n : Nat) :
    (tick^[n] u).width = u.width ∧ (tick^[n] u).height = u.height ∧
      (tick^[n] u).cells.length = u.cells.length := by
  induction n with
  | zero => exact ⟨rfl, rfl, rfl⟩
  | succ m ih =>
    rw [Function.iterate_succ_apply']
    exact ⟨ih.1, ih.2.1, by rw [tick_cells_length]; exact ih.2.2⟩

/-- C3: for every width >= 1 and height >= 1, the grid built by
Universe.new has a cell buffer of length width * height, and the length
invariant (together with the dimensions) still holds after any number
of tick calls. -/
theorem new_tick_size_invariant (width height : Nat) (rng : Nat → Bool)
    (hw : 1 ≤ width) (hh : 1 ≤ height) (n : Nat) :
    (tick^[n] (Universe.new width height rng)).width = width ∧
    (tick^[n] (Universe.new width height rng)).height = height ∧
    (tick^[n] (Universe.new width height rng)).cells.length = width * height := by
  obtain ⟨h1, h2, h3⟩ := tick_iterate_fields (Universe.new width height rng) n
  refine ⟨h1, h2, ?_⟩
  rw [h3]
  simp [Universe.new]

/-- Witness for C3 on concrete dimensions, a concrete randomness stream
and two iterations. -/
theorem new_tick_size_invariant_witness :
    (tick^[2] (Universe.new 2 3 (fun i => i % 2 = 0))).width = 2 ∧
    (tick^[2] (Universe.new 2 3 (fun i => i % 2 = 0))).height = 3 ∧
    (tick^[2] (Universe.new 2 3 (fun i => i % 2 = 0))).cells.length = 2 * 3 :=
  new_tick_size_invariant 2 3 (fun i => i % 2 = 0) (by decide) (by decide) 2

/-- C5: tick is a deterministic pure function of the prior grid state:
two grids with the same width, height and cell buffer yield identical
resulting cell buffers, with no randomness involved. -/
theorem tick_deterministic (u v : Universe) (hw : u.width = v.width)
    (hh : u.height = v.height) (hc : u.cells = v.cells) :
    (tick u).cells = (tick v).cells := by
  have huv : u = v := by cases u; cases v; simp_all
  rw [huv]

/-- Witness for C5 on two separately written equal grids. -/
theorem tick_deterministic_witness :
    (tick ⟨2, 2, [true, false, false, true]⟩).cells =
      (tick ⟨2, 2, [true, false, false, true]⟩).cells :=
  tick_deterministic ⟨2, 2, [true, false, false, true]⟩
    ⟨2, 2, [true, false, false, true]⟩ rfl rfl rfl

/-- C8: tick changes only the cell buffer; the width and height fields
of every grid are unchanged by every tick call. -/
theorem tick_preserves_dimensions (u : Universe) :
    (tick u).width = u.width ∧ (tick u).height = u.height :=
  ⟨rfl, rfl⟩

/-- C4 counterexample: on the valid one-row grid of width 3 whose only
live cell is (0, 0), the source counts 1 live neighbor at (0, 0), while
the eight spec offset positions contain the live cell twice, because the
skip test in the source drops the two delta pairs whose values are
(0, 0) rather than only the center offset. -/
theorem neighbor_offsets_counterexample :
    Valid ⟨3, 1, [true, false, false]⟩ ∧
    live_neighbor_count ⟨3, 1, [true, false, false]⟩ 0 0 = 1 ∧
    specNeighborCount ⟨3, 1, [true, false, false]⟩ 0 0 = 2 := by decide

/-- C4 amended: on every valid grid with width and height at least 2,
live_neighbor_count examines exactly the 8 offset positions obtained
from rows (row + height - 1) mod height, row, (row + 1) mod height and
the symmetric columns, excluding the center offset; and on every valid
grid a live cell at (height - 1, width - 1) is counted as a neighbor of
the cell at (0, 0). -/
theorem neighbor_offsets_amended (u : Universe) (hv : Valid u)
    (row col : Nat) (hr : row < u.height) (hc : col < u.width) :
    (2 ≤ u.width → 2 ≤ u.height →
      live_neighbor_count u row col = specNeighborCount u row col) ∧
    (u.cells.getD ((u.height - 1) * u.width + (u.width - 1)) false = true →
      1 ≤ live_neighbor_count u 0 0) := by
  constructor
  · intro h2w h2h
    have hh1 : ¬ u.height - 1 = 0 := by omega
    have hw1 : ¬ u.width - 1 = 0 := by omega
    rw [lnc_closed]
    simp [hh1, hw1, specNeighborCount, specNeighborDeltas, readAt]
  · intro hdiag
    by_cases hcase : u.height - 1 = 0 ∧ u.width - 1 = 0
    · have hht : u.height = 1 := by have := hv.2.1; omega
      have hwt : u.width = 1 := by have := hv.1; omega
      rw [hht, hwt] at hdiag
      simp only [Nat.sub_self, Nat.zero_mul, Nat.mul_one, Nat.add_zero] at hdiag
      rw [List.getD_eq_getElem?_getD] at hdiag
      rw [lnc_closed]
      simp [readAt, hht, hwt, hdiag]
    · rw [lnc_closed, if_neg hcase]
      have e : readAt u 0 0 (u.height - 1) (u.width - 1) = 1 := by
        rw [readAt]
        have eh : (0 + (u.height - 1)) % u.height = u.height - 1 := by
          rw [Nat.zero_add]
          exact Nat.mod_eq_of_lt (by have := hv.2.1; omega)
        have ew : (0 + (u.width - 1)) % u.width = u.width - 1 := by
          rw [Nat.zero_add]
          exact Nat.mod_eq_of_lt (by have := hv.1; omega)
        rw [eh, ew, hdiag]
        rfl
      rw [e]
      omega

/-- Witness for C4 amended on a concrete 3 x 2 grid with the diagonal
corner alive. -/
theorem neighbor_offsets_amended_witness :
    (2 ≤ (⟨3, 2, [false, false, false, false, false, true]⟩ : Universe).width →
      2 ≤ (⟨3, 2, [false, false, false, false, false, true]⟩ : Universe).height →
      live_neighbor_count ⟨3, 2, [false, false, false, false, false, true]⟩ 0 0 =
        specNeighborCount ⟨3, 2, [false, false, false, false, false, true]⟩ 0 0) ∧
    ((⟨3, 2, [false, false, false, false, false, true]⟩ : Universe).cells.getD
        (((⟨3, 2, [false, false, false, false, false, true]⟩ : Universe).height - 1) *
          (⟨3, 2, [false, false, false, false, false, true]⟩ : Universe).width +
          ((⟨3, 2, [false, false, false, false, false, true]⟩ : Universe).width - 1)) false = true →
      1 ≤ live_neighbor_count ⟨3, 2, [false, false, false, false, false, true]⟩ 0 0) :=
  neighbor_offsets_amended ⟨3, 2, [false, false, false, false, false, true]⟩
    (by decide) 0 0 (by decide) (by decide)

/-- A 10 x 10 grid whose only live cells are the 2 x 2 block at rows
4-5, columns 4-5 (flat indices 44, 45, 54, 55). -/
def blockU : Universe :=
  ⟨10, 10, (List.range 100).map (fun i => i == 44 || i == 45 || i == 54 || i == 55)⟩

/-- C6: one tick leaves the 2 x 2 block on a 10 x 10 grid unchanged:
every live block cell has exactly 3 live neighbors and every dead cell
has at most 2. -/
theorem block_still_life :
    (tick blockU).cells = blockU.cells ∧
    live_neighbor_count blockU 4 4 = 3 ∧
    live_neighbor_count blockU 4 5 = 3 ∧
    live_neighbor_count blockU 5 4 = 3 ∧
    live_neighbor_count blockU 5 5 = 3 ∧
    ((List.range 10).all fun r => (List.range 10).all fun c =>
      blockU.cells.getD (r * 10 + c) false ||
        decide (live_neighbor_count blockU r c ≤ 2)) = true := by
  decide

/-- C7 counterexample: construction with a zero dimension is not
rejected; Universe.new has no error path, returns an (invalid) grid
with width 0, and that grid even reaches tick, which leaves it
unchanged. -/
theorem construct_zero_not_rejected :
    (Universe.new 0 5 (fun _ => false)).width = 0 ∧
    (Universe.new 0 5 (fun _ => false)).cells = [] ∧
    ¬ Valid (Universe.new 0 5 (fun _ => false)) ∧
    tick (Universe.new 0 5 (fun _ => false)) = Universe.new 0 5 (fun _ => false) := by
  decide

/-- C7 amended: Universe.new performs no dimension validation and never
fails: for every width and height, zero included, it returns a grid
with the requested dimensions and a cell buffer of length
width * height. -/
theorem construct_total (width height : Nat) (rng : Nat → Bool) :
    (Universe.new width height rng).width = width ∧
    (Universe.new width height rng).height = height ∧
    (Universe.new width height rng).cells.length = width * height :=
  ⟨rfl, rfl, by simp [Universe.new]⟩

/-- C9: locality: the next state of (row, col) depends only on the
current states of (row, col) and its 8 toroidal neighbor positions; two
valid grids of the same dimensions that agree on those at most 9
positions produce the same next state at (row, col). -/
theorem tick_local (u v : Universe) (hu : Valid u) (hv : Valid v)
    (hw : v.width = u.width) (hh : v.height = u.height)
    (row col : Nat) (hr : row < u.height) (hc : col < u.width)
    (hagree : ∀ dr ∈ [u.height - 1, 0, 1], ∀ dc ∈ [u.width - 1, 0, 1],
      u.cells.getD (((row + dr) % u.height) * u.width + ((col + dc) % u.width)) false =
        v.cells.getD (((row + dr) % u.height) * u.width + ((col + dc) % u.width)) false) :
    (tick u).cells.getD (row * u.width + col) false =
      (tick v).cells.getD (row * v.width + col) false := by
  have hrv : row < v.height := by rw [hh]; exact hr
  have hcv : col < v.width := by rw [hw]; exact hc
  rw [tick_cells_getD u hu row col hr hc, tick_cells_getD v hv row col hrv hcv]
  have hcenter := hagree 0 (by simp) 0 (by simp)
  rw [Nat.add_zero, Nat.add_zero, Nat.mod_eq_of_lt hr, Nat.mod_eq_of_lt hc]
    at hcenter
  have hcount : live_neighbor_count u row col = live_neighbor_count v row col := by
    rw [lnc_closed, lnc_closed, hw, hh]
    have a1 := hagree (u.height - 1) (by simp) (u.width - 1) (by simp)
    have a2 := hagree (u.height - 1) (by simp) 0 (by simp)
    have a3 := hagree (u.height - 1) (by simp) 1 (by simp)
    have a4 := hagree 0 (by simp) (u.width - 1) (by simp)
    have a5 := hagree 0 (by simp) 1 (by simp)
    have a6 := hagree 1 (by simp) (u.width - 1) (by simp)
    have a7 := hagree 1 (by simp) 0 (by simp)
    have a8 := hagree 1 (by simp) 1 (by simp)
    simp only [readAt, hw, hh]
    rw [a1, a2, a3, a4, a5, a6, a7, a8]
  rw [hw, hcenter, hcount]

/-- A 4 x 4 grid whose only live cell, (2, 2), is not a toroidal
neighbor of (0, 0). -/
def localLiveU : Universe := ⟨4, 4, (List.range 16).map (fun i => i == 10)⟩

/-- The all-dead 4 x 4 grid; agrees with localLiveU on (0, 0) and all
its neighbors. -/
def localDeadU : Universe := ⟨4, 4, List.replicate 16 false⟩

/-- Witness for C9: the two 4 x 4 grids differ only at (2, 2), so the
next state at (0, 0) agrees. -/
theorem tick_local_witness :
    (tick localLiveU).cells.getD (0 * localLiveU.width + 0) false =
      (tick localDeadU).cells.getD (0 * localDeadU.width + 0) false :=
  tick_local localLiveU localDeadU (by decide) (by decide) rfl rfl 0 0
    (by decide) (by decide) (by decide)

/-- C10: on a 1 x 1 grid the two delta arrays collapse to [0, 0, 1],
four of the nine offset pairs are skipped as the center and the
remaining five reads all hit the single cell, so the neighbor count at
(0, 0) is 5 when the cell is alive and 0 when it is dead; consequently
one tick kills a lone live cell (overpopulation). -/
theorem one_by_one_degenerate (b : Bool) :
    live_neighbor_count ⟨1, 1, [b]⟩ 0 0 = (if b then 5 else 0) ∧
    (tick ⟨1, 1, [b]⟩).cells = [false] := by
  cases b <;> exact ⟨by decide, by decide⟩

end GameOfLife
